import Mathlib

/-!
Verification of the cryptoheir-rs transaction lifecycle.

This file gives a shallow embedding of the core of `cryptoheir-rs`
(the offline transaction signer): the data model of `src/types.rs`, the
gas / receipt logic of `src/network.rs`, the signing logic of
`src/crypto.rs`, the pre-signing validation of `src/commands/sign.rs`
and the broadcast protocol of `src/commands/broadcast.rs`, followed by
theorems about these definitions.

Modelling conventions:
* Machine integers (`u8`, `u64`, `u128`, `U256`) are modelled as `Nat`.
  None of the verified operations can overflow their Rust carrier type
  (the only arithmetic is the gas buffer `g * 120 / 100` on a `u64`
  estimate carried out in `U256`, and the fee computation
  `base * 2 + tip` on values far below `2^256`).
* Ethereum addresses, hashes and signatures are opaque numbers; byte
  strings are `List Nat`.
* The cryptographic primitives supplied by the `alloy` crate
  (private-key parsing and address derivation, RLP signature hashing,
  ECDSA signing, EIP-2718 wire encoding, CREATE address derivation) are
  parameters of the model, collected in `CryptoEnv`: the claims under
  verification are about how `cryptoheir-rs` uses these primitives, not
  about the primitives themselves.
* Network I/O is modelled by oracles: a poll function for the receipt
  loop, and a `NetworkEnv` record of RPC answers for the broadcast
  command, which also records the trace of network effects performed.
* Rust `Result<T, eyre::Report>` is modelled as `Except String T`.
-/

namespace Cryptoheir

/-- Ethereum address (20 bytes), modelled as a number. -/
abbrev Address := Nat

/-- 32-byte hash, modelled as a number. -/
abbrev Hash := Nat

/-- Byte string (`alloy::primitives::Bytes`). -/
abbrev ByteString := List Nat

/-! ### Data model, from `src/types.rs` -/

/-- `types.rs`: `NetworkInfo { name, chain_id, rpc_url }`. -/
structure NetworkInfo where
  name : String
  chain_id : Nat
  rpc_url : Option String
deriving DecidableEq, Repr

/-- `types.rs`: `TransactionMode { Deploy, Call }`. -/
inductive TransactionMode
  | deploy
  | call
deriving DecidableEq, Repr

/-- `types.rs`: `TransactionData`, the unsigned transaction body.
`tx_type` is the `type` field (`u8`); `from_addr` is the `from` field
(`from` is a reserved word in Lean). -/
structure TransactionData where
  tx_type : Nat
  from_addr : Address
  to_addr : Option Address
  data : ByteString
  nonce : Nat
  chain_id : Nat
  gas_limit : Nat
  max_fee_per_gas : Option Nat
  max_priority_fee_per_gas : Option Nat
  gas_price : Option Nat
  value : Option Nat
deriving DecidableEq, Repr

/-- `types.rs`: `Metadata`. -/
structure Metadata where
  network : NetworkInfo
  estimated_cost : String
  timestamp : String
  prepared : Bool
  signed : Bool
  signed_at : Option String
deriving DecidableEq, Repr

/-- `types.rs`: `TxParams`, the transaction descriptor.  The opaque
`params: Option<serde_json::Value>` field is modelled as an opaque
string. -/
structure TxParams where
  mode : TransactionMode
  function_name : Option String
  params : Option String
  transaction : TransactionData
  metadata : Metadata
deriving DecidableEq, Repr

/-- `types.rs`: `SignedTx`. -/
structure SignedTx where
  signed_transaction : ByteString
  tx_hash : Hash
  mode : TransactionMode
  from_addr : Address
  predicted_contract_address : Option Address
  metadata : Metadata
deriving DecidableEq, Repr

/-- `types.rs`: `TxReceipt`.  The `metadata: HashMap<String, Value>`
extension map is modelled as an association list (the code only ever
constructs it empty). -/
structure TxReceipt where
  transaction_hash : Hash
  block_number : Nat
  block_hash : String
  from_addr : Address
  to_addr : Option Address
  gas_used : String
  status : Nat
  contract_address : Option Address
  metadata : List (String × String)
deriving DecidableEq, Repr

/-! ### Gas logic, from `src/network.rs` -/

/-- `network.rs` `estimate_gas`, buffering step: the RPC estimate `gas`
(a `u64`, lifted to `U256`) is returned as `gas * U256::from(120) /
U256::from(100)`.  `U256` division truncates, and `gas * 120 < 2^72`
cannot overflow `U256`, so the computation is exactly this `Nat`
expression. -/
def estimate_gas_with_buffer (gas : Nat) : Nat :=
  gas * 120 / 100

/-- The gas limit as the specification words it: the estimate inflated
by 20 percent with the result rounded UP, i.e. the ceiling of
`gas * 1.2` in exact integer arithmetic.  This definition follows the
spec text and is compared against `estimate_gas_with_buffer`, which
follows the source. -/
def gas_limit_spec_ceiling (gas : Nat) : Nat :=
  (gas * 120 + 99) / 100

/-- The fee-history answer used by `get_gas_prices`: the code only
reads `fee_history.latest_block_base_fee()`, an `Option<u128>`. -/
structure FeeHistory where
  latest_block_base_fee : Option Nat
deriving DecidableEq, Repr

/-- `network.rs` `get_gas_prices`: the outcome of the two RPC calls it
may make are passed in as oracles (`fee_history_query` for
`get_fee_history`, `gas_price_query` for `get_gas_price`).  Returns
`(max_fee_per_gas?, max_priority_fee_per_gas?, gas_price?)`. -/
def get_gas_prices (fee_history_query : Except String FeeHistory)
    (gas_price_query : Except String Nat) :
    Except String (Option Nat × Option Nat × Option Nat) :=
  match fee_history_query with
  | Except.ok fee_history =>
    let base_fee := fee_history.latest_block_base_fee.getD 1000000000
    let max_priority_fee_per_gas := 1500000000
    let max_fee_per_gas := base_fee * 2 + max_priority_fee_per_gas
    Except.ok (some max_fee_per_gas, some max_priority_fee_per_gas, none)
  | Except.error _ =>
    match gas_price_query with
    | Except.error e => Except.error e
    | Except.ok gas_price => Except.ok (none, none, some gas_price)

/-! ### Receipt waiting, from `src/network.rs` -/

/-- The fields of `alloy::rpc::types::TransactionReceipt` read by
`receipt_to_tx_receipt`: `block_number` and `block_hash` are optional
on the wire. -/
structure AlloyReceipt where
  transaction_hash : Hash
  block_number : Option Nat
  block_hash : Option Nat
  from_addr : Address
  to_addr : Option Address
  gas_used : Nat
  status : Bool
  contract_address : Option Address
deriving DecidableEq, Repr

/-- `network.rs` `receipt_to_tx_receipt`: converts an alloy receipt,
failing with `No block number` / `No block hash` when the respective
field is absent (the Rust `ok_or_else(..)?`). -/
def receipt_to_tx_receipt (receipt : AlloyReceipt) : Except String TxReceipt :=
  match receipt.block_number with
  | none => Except.error "No block number"
  | some bn =>
    match receipt.block_hash with
    | none => Except.error "No block hash"
    | some bh =>
      Except.ok
        { transaction_hash := receipt.transaction_hash
          block_number := bn
          block_hash := toString bh
          from_addr := receipt.from_addr
          to_addr := receipt.to_addr
          gas_used := toString receipt.gas_used
          status := if receipt.status then 1 else 0
          contract_address := receipt.contract_address
          metadata := [] }

/-- `network.rs` `MAX_ATTEMPTS`. -/
def MAX_ATTEMPTS : Nat := 60

/-- Timeout error of `wait_for_receipt` (remediation text elided). -/
def timeout_message : String :=
  "Timeout waiting for transaction receipt"

/-- `network.rs` `wait_for_receipt`, loop body.  `poll n` is the answer
of the n-th `get_transaction_receipt` RPC call (`Except.error` models a
failed RPC call, which the `?` operator propagates; `Except.ok none`
models a null receipt).  `attempts` is the Rust loop counter; `fuel`
only bounds the recursion and is never exhausted before the attempt
check when it starts at `MAX_ATTEMPTS` (and if it were, the result
would be the same timeout error the attempt check produces). -/
def wait_for_receipt_go (poll : Nat → Except String (Option AlloyReceipt)) :
    Nat → Nat → Except String TxReceipt
  | attempts, 0 =>
    match poll attempts with
    | Except.error e => Except.error e
    | Except.ok (some receipt) => receipt_to_tx_receipt receipt
    | Except.ok none => Except.error timeout_message
  | attempts, fuel + 1 =>
    match poll attempts with
    | Except.error e => Except.error e
    | Except.ok (some receipt) => receipt_to_tx_receipt receipt
    | Except.ok none =>
      if attempts + 1 ≥ MAX_ATTEMPTS then
        Except.error timeout_message
      else
        wait_for_receipt_go poll (attempts + 1) fuel

/-- `network.rs` `wait_for_receipt`: poll from attempt 0. -/
def wait_for_receipt (poll : Nat → Except String (Option AlloyReceipt)) :
    Except String TxReceipt :=
  wait_for_receipt_go poll 0 MAX_ATTEMPTS

/-! ### Pre-signing validation, from `src/commands/sign.rs` -/

/-- `commands/sign.rs` `execute`, gas-parameter validation (the match
on `tx_params.transaction.tx_type`).  On type 2, a present `gas_price`
only logs a warning; on type 0, present fee-market fields only log a
warning; neither is an error. -/
def validate_gas_params (transaction : TransactionData) : Except String Unit :=
  if transaction.tx_type = 2 then
    if transaction.max_fee_per_gas.isNone then
      Except.error "EIP-1559 transaction (type 2) requires maxFeePerGas but it is missing"
    else if transaction.max_priority_fee_per_gas.isNone then
      Except.error "EIP-1559 transaction (type 2) requires maxPriorityFeePerGas but it is missing"
    else
      Except.ok ()
  else if transaction.tx_type = 0 then
    if transaction.gas_price.isNone then
      Except.error "Legacy transaction (type 0) requires gasPrice but it is missing"
    else
      Except.ok ()
  else
    Except.error "Unsupported transaction type"

/-- `commands/sign.rs` `execute`, the phase checks before review and
signing: the `prepared` flag check followed by gas-parameter
validation (an already-`signed` descriptor only logs a warning). -/
def validate_for_signing (tx_params : TxParams) : Except String Unit :=
  if ¬ tx_params.metadata.prepared then
    Except.error "Transaction has not been prepared"
  else
    validate_gas_params tx_params.transaction

/-! ### Signing, from `src/crypto.rs` -/

/-- `alloy::primitives::TxKind`: call target or contract creation. -/
inductive TxKind
  | create
  | callTo (addr : Address)
deriving DecidableEq, Repr

/-- `alloy::consensus::TxEip1559`, the unsigned type-2 transaction
(the access list, always defaulted empty by the code, is omitted). -/
structure TxEip1559 where
  chain_id : Nat
  nonce : Nat
  gas_limit : Nat
  max_fee_per_gas : Nat
  max_priority_fee_per_gas : Nat
  to_kind : TxKind
  value : Nat
  input : ByteString
deriving DecidableEq, Repr

/-- `alloy::consensus::TxLegacy`, the unsigned type-0 transaction. -/
structure TxLegacy where
  chain_id : Option Nat
  nonce : Nat
  gas_price : Nat
  gas_limit : Nat
  to_kind : TxKind
  value : Nat
  input : ByteString
deriving DecidableEq, Repr

/-- A parsed private key (`PrivateKeySigner`): its derived address and
its ECDSA signing function over 32-byte hashes (signature values are
opaque numbers). -/
structure SignerModel where
  address : Address
  sign_hash : Hash → Nat

/-- The `alloy` cryptographic primitives used by `crypto.rs`, as
abstract parameters: key parsing (`private_key.parse()`, `none` models
a parse failure), the two `signature_hash()` functions, the two
`TxEnvelope::..(tx.into_signed(sig)).encoded_2718()` wire encoders, the
`Address::create` CREATE derivation, and the `chrono::Utc::now()`
timestamp. -/
structure CryptoEnv where
  parse_key : String → Option SignerModel
  sig_hash_eip1559 : TxEip1559 → Hash
  sig_hash_legacy : TxLegacy → Hash
  encode_eip1559 : TxEip1559 → Nat → ByteString
  encode_legacy : TxLegacy → Nat → ByteString
  create_address : Address → Nat → Address
  now : String

/-- `crypto.rs` `sign_eip1559`, construction of the `TxEip1559` value
from the descriptor body (given the two unwrapped fee fields). -/
def mk_tx_eip1559 (tx_data : TransactionData)
    (max_fee max_priority : Nat) : TxEip1559 :=
  { chain_id := tx_data.chain_id
    nonce := tx_data.nonce
    gas_limit := tx_data.gas_limit
    max_fee_per_gas := max_fee
    max_priority_fee_per_gas := max_priority
    to_kind := match tx_data.to_addr with
      | some addr => TxKind.callTo addr
      | none => TxKind.create
    value := tx_data.value.getD 0
    input := tx_data.data }

/-- `crypto.rs` `sign_legacy`, construction of the `TxLegacy` value
from the descriptor body (given the unwrapped gas price). -/
def mk_tx_legacy (tx_data : TransactionData) (gas_price : Nat) : TxLegacy :=
  { chain_id := some tx_data.chain_id
    nonce := tx_data.nonce
    gas_price := gas_price
    gas_limit := tx_data.gas_limit
    to_kind := match tx_data.to_addr with
      | some addr => TxKind.callTo addr
      | none => TxKind.create
    value := tx_data.value.getD 0
    input := tx_data.data }

/-- `crypto.rs` `sign_eip1559`: unwrap the two fee-market fields, build
the unsigned transaction, take its signature hash, sign that hash, wire
encode, and return `(encoded, tx_hash)` where `tx_hash` is the
signature hash of the unsigned transaction. -/
def sign_eip1559 (env : CryptoEnv) (tx_data : TransactionData)
    (signer : SignerModel) : Except String (ByteString × Hash) :=
  match tx_data.max_fee_per_gas with
  | none => Except.error "max_fee_per_gas required for EIP-1559"
  | some max_fee =>
    match tx_data.max_priority_fee_per_gas with
    | none => Except.error "max_priority_fee_per_gas required for EIP-1559"
    | some max_priority =>
      let tx := mk_tx_eip1559 tx_data max_fee max_priority
      let tx_hash := env.sig_hash_eip1559 tx
      let sig_hash := env.sig_hash_eip1559 tx
      let signature := signer.sign_hash sig_hash
      let encoded := env.encode_eip1559 tx signature
      Except.ok (encoded, tx_hash)

/-- `crypto.rs` `sign_legacy`: unwrap the gas price, build the unsigned
transaction, take its signature hash, sign that hash, wire encode, and
return `(encoded, tx_hash)`. -/
def sign_legacy (env : CryptoEnv) (tx_data : TransactionData)
    (signer : SignerModel) : Except String (ByteString × Hash) :=
  match tx_data.gas_price with
  | none => Except.error "gas_price required for legacy transaction"
  | some gas_price =>
    let tx := mk_tx_legacy tx_data gas_price
    let tx_hash := env.sig_hash_legacy tx
    let sig_hash := env.sig_hash_legacy tx
    let signature := signer.sign_hash sig_hash
    let encoded := env.encode_legacy tx signature
    Except.ok (encoded, tx_hash)

/-- `crypto.rs` `sign_transaction`: parse the key, check the derived
address against `transaction.from`, dispatch on the transaction type
(the Rust `match` on the `u8` is the literal arms 2, 0 and a catch-all,
rendered as an if-chain), predict the contract address in deploy mode,
and assemble the `SignedTx` with updated metadata. -/
def sign_transaction (env : CryptoEnv) (tx_params : TxParams)
    (private_key : String) : Except String SignedTx :=
  match env.parse_key private_key with
  | none => Except.error "invalid private key"
  | some signer =>
    if signer.address ≠ tx_params.transaction.from_addr then
      Except.error "Private key address does not match transaction from address"
    else
      match (if tx_params.transaction.tx_type = 2 then
               sign_eip1559 env tx_params.transaction signer
             else if tx_params.transaction.tx_type = 0 then
               sign_legacy env tx_params.transaction signer
             else
               Except.error "Unsupported transaction type") with
      | Except.error e => Except.error e
      | Except.ok (signed_tx_bytes, tx_hash) =>
        Except.ok
          { signed_transaction := signed_tx_bytes
            tx_hash := tx_hash
            mode := tx_params.mode
            from_addr := tx_params.transaction.from_addr
            predicted_contract_address :=
              match tx_params.mode with
              | TransactionMode.deploy =>
                some (env.create_address signer.address tx_params.transaction.nonce)
              | TransactionMode.call => none
            metadata := { tx_params.metadata with
                          signed := true
                          signed_at := some env.now } }

/-! ### Broadcast protocol, from `src/commands/broadcast.rs` -/

/-- Network effects performed by the broadcast command, in order. -/
inductive NetEffect
  | getChainId
  | lookupTx
  | submit
  | pollReceipt
deriving DecidableEq, Repr

/-- The RPC answers the broadcast command can observe:
`chain_id_query` is `get_chain_id`, `tx_lookup_found` is whether
`get_transaction(tx_hash)` succeeds (the code only tests `is_ok()`),
`submit_query` is `broadcast_transaction` and `receipt_query` is the
outcome of `wait_for_receipt`. -/
structure NetworkEnv where
  chain_id_query : Except String Nat
  tx_lookup_found : Bool
  submit_query : Except String Hash
  receipt_query : Except String TxReceipt

/-- `commands/broadcast.rs` `execute`, from the point where the RPC
client is connected (loading the signed transaction and resolving the
RPC URL are file/environment I/O outside the model): check the chain
id against the embedded metadata, look the transaction up by its
content hash, submit only when not found, then wait for the receipt.
Returns the result together with the trace of network effects. -/
def broadcast_execute (env : NetworkEnv) (signed_tx : SignedTx) :
    Except String TxReceipt × List NetEffect :=
  match env.chain_id_query with
  | Except.error e => (Except.error e, [NetEffect.getChainId])
  | Except.ok chain_id =>
    if chain_id ≠ signed_tx.metadata.network.chain_id then
      (Except.error "Chain ID mismatch", [NetEffect.getChainId])
    else if env.tx_lookup_found then
      (env.receipt_query,
       [NetEffect.getChainId, NetEffect.lookupTx, NetEffect.pollReceipt])
    else
      match env.submit_query with
      | Except.error e =>
        (Except.error e,
         [NetEffect.getChainId, NetEffect.lookupTx, NetEffect.submit])
      | Except.ok _ =>
        (env.receipt_query,
         [NetEffect.getChainId, NetEffect.lookupTx, NetEffect.submit,
          NetEffect.pollReceipt])

/-! ### Concrete sample values, used by the witness theorems -/

/-- Concrete network, matching the test scenario of the spec. -/
def sample_network : NetworkInfo :=
  { name := "sepolia", chain_id := 11155111, rpc_url := none }

/-- Concrete prepared, unsigned metadata. -/
def sample_metadata : Metadata :=
  { network := sample_network
    estimated_cost := "0.000063"
    timestamp := "2025-01-01T00:00:00Z"
    prepared := true
    signed := false
    signed_at := none }

/-- Concrete type-2 transaction body. -/
def sample_body : TransactionData :=
  { tx_type := 2
    from_addr := 10
    to_addr := some 11
    data := [1, 2]
    nonce := 4
    chain_id := 11155111
    gas_limit := 21000
    max_fee_per_gas := some 3000000000
    max_priority_fee_per_gas := some 1500000000
    gas_price := none
    value := none }

/-- Concrete descriptor around `sample_body`. -/
def sample_params : TxParams :=
  { mode := TransactionMode.call
    function_name := some "deposit"
    params := none
    transaction := sample_body
    metadata := sample_metadata }

/-- Concrete signer whose derived address matches `sample_body`. -/
def sample_signer : SignerModel :=
  { address := 10, sign_hash := fun h => h + 1 }

/-- Concrete crypto primitives (abstract stand-ins chosen so that all
sample computations evaluate). -/
def sample_env : CryptoEnv :=
  { parse_key := fun _ => some sample_signer
    sig_hash_eip1559 := fun tx => tx.nonce
    sig_hash_legacy := fun tx => tx.nonce + 1000
    encode_eip1559 := fun _tx signature => [signature]
    encode_legacy := fun _tx signature => [signature, 0]
    create_address := fun addr nonce => addr * 1000 + nonce
    now := "2025-01-02T00:00:00Z" }

/-- The signed transaction `sign_transaction` produces on the samples. -/
def sample_signed : SignedTx :=
  { signed_transaction := [5]
    tx_hash := 4
    mode := TransactionMode.call
    from_addr := 10
    predicted_contract_address := none
    metadata := { sample_metadata with
                  signed := true
                  signed_at := some "2025-01-02T00:00:00Z" } }

/-- A pending receipt answer: present, but with no block number. -/
def sample_pending_receipt : AlloyReceipt :=
  { transaction_hash := 4
    block_number := none
    block_hash := some 7
    from_addr := 10
    to_addr := some 11
    gas_used := 21000
    status := true
    contract_address := none }

/-! ### Claim C2: the 20 percent gas buffer -/

/-- C2, counterexample: the claim says the gas limit is the ceiling of
`g * 1.2`, but at estimate `g = 1` the code computes
`1 * 120 / 100 = 1` while the ceiling is `2`: the code rounds down, not
up. -/
theorem c2_gas_buffer_not_ceiling :
    estimate_gas_with_buffer 1 = 1 ∧ gas_limit_spec_ceiling 1 = 2 ∧
    estimate_gas_with_buffer 1 ≠ gas_limit_spec_ceiling 1 := by
  refine ⟨rfl, rfl, ?_⟩
  decide

/-- C2, amended: for every gas estimate `g`, the gas limit placed in
the descriptor is `g` inflated by the fixed 20 percent safety margin
with the result rounded DOWN, i.e. the floor of `g * 1.2` in exact
integer arithmetic (characterised here by the floor inequalities
`5 * limit ≤ 6 * g < 5 * limit + 5`). -/
theorem c2_gas_buffer_is_floor (gas : Nat) :
    5 * estimate_gas_with_buffer gas ≤ 6 * gas ∧
    6 * gas < 5 * estimate_gas_with_buffer gas + 5 := by
  unfold estimate_gas_with_buffer
  omega

/-! ### Claim C3: gas-parameter validation before signing -/

/-- C3: pre-signing phase validation of the fee fields succeeds exactly
when a type-2 body carries both fee-market fields or a type-0 body
carries the legacy gas price; it fails on a type-2 body missing either
fee-market field, on a type-0 body missing the gas price, and on every
other type value; the presence of the opposite fee family alone never
makes it fail. -/
theorem c3_validate_gas_params_ok_iff (t : TransactionData) :
    validate_gas_params t = Except.ok () ↔
      (t.tx_type = 2 ∧ t.max_fee_per_gas.isSome ∧
        t.max_priority_fee_per_gas.isSome) ∨
      (t.tx_type = 0 ∧ t.gas_price.isSome) := by
  unfold validate_gas_params
  by_cases h2 : t.tx_type = 2
  · cases hf : t.max_fee_per_gas <;> cases hp : t.max_priority_fee_per_gas <;>
      simp_all
  · by_cases h0 : t.tx_type = 0
    · cases hg : t.gas_price <;> simp_all
    · simp_all

/-! ### Claim C8: gas strategy selection -/

/-- C8: the gas strategy selector returns exactly one fee family.  When
the fee-history query succeeds with latest base fee `b`, it returns
fee-market values: the fixed 1.5-gwei tip and max fee `b * 2 + tip`,
with no gas price.  When the fee-history query fails it does not error
for that reason but falls back to the legacy gas price, with no
fee-market fields.  Every successful answer carries exactly one of the
two fee families. -/
theorem c8_get_gas_prices_one_fee_family :
    (∀ (base_fee : Nat) (gas_price_query : Except String Nat),
       get_gas_prices (Except.ok ⟨some base_fee⟩) gas_price_query =
         Except.ok
           (some (base_fee * 2 + 1500000000), some 1500000000, none)) ∧
    (∀ (e : String) (gas_price : Nat),
       get_gas_prices (Except.error e) (Except.ok gas_price) =
         Except.ok (none, none, some gas_price)) ∧
    (∀ (fee_history_query : Except String FeeHistory)
       (gas_price_query : Except String Nat)
       (r : Option Nat × Option Nat × Option Nat),
       get_gas_prices fee_history_query gas_price_query = Except.ok r →
         (r.1.isSome ∧ r.2.1.isSome ∧ r.2.2 = none) ∨
         (r.1 = none ∧ r.2.1 = none ∧ r.2.2.isSome)) := by
  refine ⟨fun base_fee gq => rfl, fun e gas_price => rfl, ?_⟩
  intro fq gq r h
  unfold get_gas_prices at h
  cases fq with
  | ok fh =>
    simp only [Except.ok.injEq] at h
    subst h
    left
    simp
  | error e =>
    cases gq with
    | error e2 => simp at h
    | ok gp =>
      simp only [Except.ok.injEq] at h
      subst h
      right
      simp

/-- C8, witness: at concrete inputs, a successful fee-history query
with base fee 7 yields the fee-market family, a failed one with gas
price 42 yields the legacy family, and the first answer carries exactly
one family. -/
theorem c8_get_gas_prices_one_fee_family_witness :
    get_gas_prices (Except.ok ⟨some 7⟩) (Except.error "down") =
      Except.ok (some 1500000014, some 1500000000, none) ∧
    get_gas_prices (Except.error "down") (Except.ok 42) =
      Except.ok (none, none, some 42) ∧
    (((some 1500000014 : Option Nat).isSome ∧
       (some 1500000000 : Option Nat).isSome ∧
       (none : Option Nat) = none) ∨
     ((some 1500000014 : Option Nat) = none ∧
       (some 1500000000 : Option Nat) = none ∧
       (none : Option Nat).isSome)) :=
  ⟨c8_get_gas_prices_one_fee_family.1 7 (Except.error "down"),
   c8_get_gas_prices_one_fee_family.2.1 "down" 42,
   c8_get_gas_prices_one_fee_family.2.2 (Except.ok ⟨some 7⟩)
     (Except.error "down") (some 1500000014, some 1500000000, none)
     (c8_get_gas_prices_one_fee_family.1 7 (Except.error "down"))⟩

/-! ### Claim C7: chain-id mismatch aborts broadcast -/

/-- C7: when the chain id observed from the connected network differs
from the chain id embedded in the signed transaction metadata, the
broadcast command returns an error after the chain-id query alone: it
neither performs the idempotency lookup nor submits the raw signed
encoding. -/
theorem c7_broadcast_chain_mismatch_aborts (env : NetworkEnv)
    (signed_tx : SignedTx) (chain_id : Nat)
    (hq : env.chain_id_query = Except.ok chain_id)
    (hne : chain_id ≠ signed_tx.metadata.network.chain_id) :
    broadcast_execute env signed_tx =
      (Except.error "Chain ID mismatch", [NetEffect.getChainId]) ∧
    NetEffect.submit ∉ (broadcast_execute env signed_tx).2 ∧
    NetEffect.lookupTx ∉ (broadcast_execute env signed_tx).2 := by
  have heq : broadcast_execute env signed_tx =
      (Except.error "Chain ID mismatch", [NetEffect.getChainId]) := by
    unfold broadcast_execute
    rw [hq]
    simp [hne]
  refine ⟨heq, ?_, ?_⟩ <;> rw [heq] <;> simp

/-- C7, witness: broadcasting `sample_signed` (embedded chain id
11155111) against a network reporting chain id 1 aborts after the
chain-id query. -/
theorem c7_broadcast_chain_mismatch_aborts_witness :
    broadcast_execute
        { chain_id_query := Except.ok 1
          tx_lookup_found := false
          submit_query := Except.ok 0
          receipt_query := Except.error "pending" } sample_signed =
      (Except.error "Chain ID mismatch", [NetEffect.getChainId]) ∧
    NetEffect.submit ∉ (broadcast_execute
        { chain_id_query := Except.ok 1
          tx_lookup_found := false
          submit_query := Except.ok 0
          receipt_query := Except.error "pending" } sample_signed).2 ∧
    NetEffect.lookupTx ∉ (broadcast_execute
        { chain_id_query := Except.ok 1
          tx_lookup_found := false
          submit_query := Except.ok 0
          receipt_query := Except.error "pending" } sample_signed).2 :=
  c7_broadcast_chain_mismatch_aborts _ sample_signed 1 rfl (by decide)

/-! ### Claim C9: idempotent broadcast -/

/-- C9: whenever the content-hash lookup finds an existing transaction
on the network (and the chain ids agree), the broadcast command
performs no submission and proceeds directly to receipt polling, its
result being exactly the receipt-poll outcome.  Since the command is a
deterministic function of the network answers, a second broadcast of
the same signed transaction against the post-confirmation network
(where the lookup succeeds and the poll returns the confirmed receipt)
yields that same receipt with no duplicate submission. -/
theorem c9_broadcast_idempotent_skip (env : NetworkEnv)
    (signed_tx : SignedTx)
    (hq : env.chain_id_query = Except.ok signed_tx.metadata.network.chain_id)
    (hfound : env.tx_lookup_found = true) :
    broadcast_execute env signed_tx =
      (env.receipt_query,
       [NetEffect.getChainId, NetEffect.lookupTx, NetEffect.pollReceipt]) ∧
    NetEffect.submit ∉ (broadcast_execute env signed_tx).2 := by
  have heq : broadcast_execute env signed_tx =
      (env.receipt_query,
       [NetEffect.getChainId, NetEffect.lookupTx, NetEffect.pollReceipt]) := by
    unfold broadcast_execute
    rw [hq]
    simp [hfound]
  refine ⟨heq, ?_⟩
  rw [heq]
  simp

/-- C9, witness: re-broadcasting `sample_signed` against a network that
already knows its hash and already has a confirmed receipt returns that
receipt without submitting. -/
theorem c9_broadcast_idempotent_skip_witness :
    broadcast_execute
        { chain_id_query := Except.ok 11155111
          tx_lookup_found := true
          submit_query := Except.ok 4
          receipt_query := Except.ok
            { transaction_hash := 4
              block_number := 100
              block_hash := "7"
              from_addr := 10
              to_addr := some 11
              gas_used := "21000"
              status := 1
              contract_address := none
              metadata := [] } } sample_signed =
      (Except.ok
         { transaction_hash := 4
           block_number := 100
           block_hash := "7"
           from_addr := 10
           to_addr := some 11
           gas_used := "21000"
           status := 1
           contract_address := none
           metadata := [] },
       [NetEffect.getChainId, NetEffect.lookupTx, NetEffect.pollReceipt]) ∧
    NetEffect.submit ∉ (broadcast_execute
        { chain_id_query := Except.ok 11155111
          tx_lookup_found := true
          submit_query := Except.ok 4
          receipt_query := Except.ok
            { transaction_hash := 4
              block_number := 100
              block_hash := "7"
              from_addr := 10
              to_addr := some 11
              gas_used := "21000"
              status := 1
              contract_address := none
              metadata := [] } } sample_signed).2 :=
  c9_broadcast_idempotent_skip _ sample_signed rfl rfl

/-! ### Claim C1: receipts with missing block number or hash -/

/-- C1, counterexample: the claim says a receipt with a missing block
number is treated as not-yet-final and polling continues, but when the
very first poll returns `sample_pending_receipt` (present, block number
absent) the waiter fails immediately with the conversion error instead
of polling on. -/
theorem c1_incomplete_receipt_fails_immediately :
    wait_for_receipt (fun _ => Except.ok (some sample_pending_receipt)) =
      Except.error "No block number" := by
  rfl

/-- When a poll answers with a present receipt, the wait loop stops at
that attempt and returns its conversion, whatever the remaining
fuel. -/
theorem wait_for_receipt_go_step
    (poll : Nat → Except String (Option AlloyReceipt))
    (attempts fuel : Nat) (receipt : AlloyReceipt)
    (h : poll attempts = Except.ok (some receipt)) :
    wait_for_receipt_go poll attempts fuel = receipt_to_tx_receipt receipt := by
  cases fuel <;> simp [wait_for_receipt_go, h]

/-- C1, amended: when a poll returns a receipt whose block number or
block hash is missing, the receipt waiter does NOT treat it as
not-yet-final: it stops immediately and returns the conversion error of
that receipt (so it neither returns a converted receipt early nor keeps
polling toward the attempt ceiling). -/
theorem c1_wait_for_receipt_errors_on_incomplete_receipt
    (poll : Nat → Except String (Option AlloyReceipt))
    (receipt : AlloyReceipt)
    (hpoll : poll 0 = Except.ok (some receipt))
    (hmiss : receipt.block_number = none ∨ receipt.block_hash = none) :
    wait_for_receipt poll = receipt_to_tx_receipt receipt ∧
    ∃ e, receipt_to_tx_receipt receipt = Except.error e := by
  constructor
  · unfold wait_for_receipt
    exact wait_for_receipt_go_step poll 0 MAX_ATTEMPTS receipt hpoll
  · cases hbn : receipt.block_number with
    | none => exact ⟨"No block number", by simp [receipt_to_tx_receipt, hbn]⟩
    | some bn =>
      cases hbh : receipt.block_hash with
      | none =>
        exact ⟨"No block hash", by simp [receipt_to_tx_receipt, hbn, hbh]⟩
      | some bh =>
        rcases hmiss with h1 | h2
        · rw [hbn] at h1
          exact absurd h1 (by simp)
        · rw [hbh] at h2
          exact absurd h2 (by simp)

/-- C1, witness: concrete instance at `sample_pending_receipt`. -/
theorem c1_wait_for_receipt_errors_on_incomplete_receipt_witness :
    wait_for_receipt (fun _ => Except.ok (some sample_pending_receipt)) =
      receipt_to_tx_receipt sample_pending_receipt ∧
    ∃ e, receipt_to_tx_receipt sample_pending_receipt = Except.error e :=
  c1_wait_for_receipt_errors_on_incomplete_receipt
    (fun _ => Except.ok (some sample_pending_receipt))
    sample_pending_receipt rfl (Or.inl rfl)

/-! ### Claim C4: signer / from address pairing -/

/-- C4: when the address derived from the private key differs from the
descriptor body's from address, signing returns an error (and hence
produces no signed transaction). -/
theorem c4_sign_transaction_address_mismatch (env : CryptoEnv)
    (tx_params : TxParams) (private_key : String) (signer : SignerModel)
    (hparse : env.parse_key private_key = some signer)
    (hne : signer.address ≠ tx_params.transaction.from_addr) :
    sign_transaction env tx_params private_key =
      Except.error
        "Private key address does not match transaction from address" := by
  unfold sign_transaction
  simp only [hparse]
  rw [if_pos hne]

/-- C4, witness: the sample key derives address 10, so signing a
descriptor whose body says the sender is 99 fails. -/
theorem c4_sign_transaction_address_mismatch_witness :
    sign_transaction sample_env
        { sample_params with
          transaction := { sample_body with from_addr := 99 } } "key" =
      Except.error
        "Private key address does not match transaction from address" :=
  c4_sign_transaction_address_mismatch sample_env _ "key" sample_signer rfl
    (by decide)

/-! ### Shared shape lemmas for successful signing -/

/-- Successful type-2 signing determines the output pair: the wire
encoding of the built unsigned transaction and its signature hash. -/
theorem sign_eip1559_ok_shape (env : CryptoEnv) (td : TransactionData)
    (signer : SignerModel) (bh : ByteString × Hash)
    (h : sign_eip1559 env td signer = Except.ok bh) :
    ∃ mf mp, td.max_fee_per_gas = some mf ∧
      td.max_priority_fee_per_gas = some mp ∧
      bh = (env.encode_eip1559 (mk_tx_eip1559 td mf mp)
              (signer.sign_hash (env.sig_hash_eip1559 (mk_tx_eip1559 td mf mp))),
            env.sig_hash_eip1559 (mk_tx_eip1559 td mf mp)) := by
  unfold sign_eip1559 at h
  cases hmf : td.max_fee_per_gas with
  | none => rw [hmf] at h; exact absurd h (by simp)
  | some mf =>
    rw [hmf] at h
    cases hmp : td.max_priority_fee_per_gas with
    | none => rw [hmp] at h; exact absurd h (by simp)
    | some mp =>
      rw [hmp] at h
      simp only [Except.ok.injEq] at h
      exact ⟨mf, mp, rfl, rfl, h.symm⟩

/-- Successful type-0 signing determines the output pair likewise. -/
theorem sign_legacy_ok_shape (env : CryptoEnv) (td : TransactionData)
    (signer : SignerModel) (bh : ByteString × Hash)
    (h : sign_legacy env td signer = Except.ok bh) :
    ∃ gp, td.gas_price = some gp ∧
      bh = (env.encode_legacy (mk_tx_legacy td gp)
              (signer.sign_hash (env.sig_hash_legacy (mk_tx_legacy td gp))),
            env.sig_hash_legacy (mk_tx_legacy td gp)) := by
  unfold sign_legacy at h
  cases hgp : td.gas_price with
  | none => rw [hgp] at h; exact absurd h (by simp)
  | some gp =>
    rw [hgp] at h
    simp only [Except.ok.injEq] at h
    exact ⟨gp, rfl, h.symm⟩

/-- Successful signing determines each field of the `SignedTx`: a
signer parsed from the key whose address equals the body's from
address, a type dispatch that succeeded on type 2 or type 0, and the
assembled output record. -/
theorem sign_transaction_ok_shape (env : CryptoEnv) (tx_params : TxParams)
    (private_key : String) (st : SignedTx)
    (h : sign_transaction env tx_params private_key = Except.ok st) :
    ∃ signer bh,
      env.parse_key private_key = some signer ∧
      signer.address = tx_params.transaction.from_addr ∧
      ((tx_params.transaction.tx_type = 2 ∧
          sign_eip1559 env tx_params.transaction signer = Except.ok bh) ∨
       (tx_params.transaction.tx_type ≠ 2 ∧
          tx_params.transaction.tx_type = 0 ∧
          sign_legacy env tx_params.transaction signer = Except.ok bh)) ∧
      st = { signed_transaction := bh.1
             tx_hash := bh.2
             mode := tx_params.mode
             from_addr := tx_params.transaction.from_addr
             predicted_contract_address :=
               (match tx_params.mode with
                | TransactionMode.deploy =>
                  some (env.create_address signer.address
                    tx_params.transaction.nonce)
                | TransactionMode.call => none)
             metadata := { tx_params.metadata with
                           signed := true
                           signed_at := some env.now } } := by
  unfold sign_transaction at h
  cases hparse : env.parse_key private_key with
  | none => simp only [hparse] at h; exact absurd h (by simp)
  | some signer =>
    simp only [hparse] at h
    by_cases ha : signer.address ≠ tx_params.transaction.from_addr
    · rw [if_pos ha] at h; exact absurd h (by simp)
    · rw [if_neg ha] at h
      rw [not_not] at ha
      by_cases h2 : tx_params.transaction.tx_type = 2
      · rw [if_pos h2] at h
        cases hs : sign_eip1559 env tx_params.transaction signer with
        | error e => simp only [hs] at h; exact absurd h (by simp)
        | ok bh =>
          obtain ⟨bs, hh⟩ := bh
          simp only [hs, Except.ok.injEq] at h
          exact ⟨signer, (bs, hh), rfl, ha, Or.inl ⟨h2, hs⟩, h.symm⟩
      · rw [if_neg h2] at h
        by_cases h0 : tx_params.transaction.tx_type = 0
        · rw [if_pos h0] at h
          cases hs : sign_legacy env tx_params.transaction signer with
          | error e => simp only [hs] at h; exact absurd h (by simp)
          | ok bh =>
            obtain ⟨bs, hh⟩ := bh
            simp only [hs, Except.ok.injEq] at h
            exact ⟨signer, (bs, hh), rfl, ha, Or.inr ⟨h2, h0, hs⟩, h.symm⟩
        · rw [if_neg h0] at h
          exact absurd h (by simp)

/-! ### Claim C5: the content hash is the binding signature hash -/

/-- C5: for every successfully signed transaction, the content hash
stored in the output equals the signature hash of the unsigned
transaction handed to the signing primitive (type 2 and type 0 alike),
and it does not depend on the signed wire encoding: replacing both
encoders leaves the stored hash unchanged. -/
theorem c5_tx_hash_is_binding_hash (env : CryptoEnv) (tx_params : TxParams)
    (private_key : String) (st : SignedTx)
    (h : sign_transaction env tx_params private_key = Except.ok st) :
    (∀ mf mp, tx_params.transaction.tx_type = 2 →
       tx_params.transaction.max_fee_per_gas = some mf →
       tx_params.transaction.max_priority_fee_per_gas = some mp →
       st.tx_hash =
         env.sig_hash_eip1559 (mk_tx_eip1559 tx_params.transaction mf mp)) ∧
    (∀ gp, tx_params.transaction.tx_type = 0 →
       tx_params.transaction.gas_price = some gp →
       st.tx_hash = env.sig_hash_legacy (mk_tx_legacy tx_params.transaction gp)) ∧
    (∀ e1 e2, Except.map SignedTx.tx_hash
       (sign_transaction
         { env with encode_eip1559 := e1, encode_legacy := e2 }
         tx_params private_key) = Except.ok st.tx_hash) := by
  obtain ⟨signer, bh, hparse, ha, hbranch, hst⟩ :=
    sign_transaction_ok_shape env tx_params private_key st h
  refine ⟨?_, ?_, ?_⟩
  · intro mf mp h2 hmf hmp
    rcases hbranch with ⟨-, hs⟩ | ⟨hne2, -, -⟩
    · obtain ⟨mf2, mp2, hmf2, hmp2, hbh⟩ :=
        sign_eip1559_ok_shape env tx_params.transaction signer bh hs
      rw [hmf] at hmf2
      rw [hmp] at hmp2
      obtain rfl := Option.some.inj hmf2
      obtain rfl := Option.some.inj hmp2
      rw [hst, hbh]
    · exact absurd h2 hne2
  · intro gp h0 hgp
    rcases hbranch with ⟨h2, -⟩ | ⟨-, -, hs⟩
    · rw [h0] at h2
      exact absurd h2 (by decide)
    · obtain ⟨gp2, hgp2, hbh⟩ :=
        sign_legacy_ok_shape env tx_params.transaction signer bh hs
      rw [hgp] at hgp2
      obtain rfl := Option.some.inj hgp2
      rw [hst, hbh]
  · intro e1 e2
    rcases hbranch with ⟨h2, hs⟩ | ⟨hne2, h0, hs⟩
    · obtain ⟨mf, mp, hmf, hmp, hbh⟩ :=
        sign_eip1559_ok_shape env tx_params.transaction signer bh hs
      unfold sign_transaction
      simp only [hparse]
      rw [if_neg (fun hne => hne ha), if_pos h2]
      unfold sign_eip1559
      simp only [hmf, hmp]
      rw [hst, hbh]
      simp [Except.map]
    · obtain ⟨gp, hgp, hbh⟩ :=
        sign_legacy_ok_shape env tx_params.transaction signer bh hs
      unfold sign_transaction
      simp only [hparse]
      rw [if_neg (fun hne => hne ha), if_neg hne2, if_pos h0]
      unfold sign_legacy
      simp only [hgp]
      rw [hst, hbh]
      simp [Except.map]

/-- C5, witness: on the concrete sample signing, the stored hash is the
signature hash of the built type-2 transaction, and replacing both wire
encoders leaves the hash unchanged. -/
theorem c5_tx_hash_is_binding_hash_witness :
    sample_signed.tx_hash =
      sample_env.sig_hash_eip1559
        (mk_tx_eip1559 sample_params.transaction 3000000000 1500000000) ∧
    Except.map SignedTx.tx_hash
      (sign_transaction
        { sample_env with
          encode_eip1559 := fun _ _ => []
          encode_legacy := fun _ _ => [] } sample_params "key") =
      Except.ok sample_signed.tx_hash :=
  ⟨(c5_tx_hash_is_binding_hash sample_env sample_params "key" sample_signed
      rfl).1 3000000000 1500000000 rfl rfl rfl,
   (c5_tx_hash_is_binding_hash sample_env sample_params "key" sample_signed
      rfl).2.2 (fun _ _ => []) (fun _ _ => [])⟩

/-! ### Claim C6: metadata update on signing -/

/-- C6: for every descriptor that signs successfully, the output
metadata is the input metadata with `signed` set to true and a fresh
signing timestamp; network, estimated cost, creation timestamp and the
`prepared` flag are unchanged. -/
theorem c6_sign_transaction_metadata (env : CryptoEnv) (tx_params : TxParams)
    (private_key : String) (st : SignedTx)
    (h : sign_transaction env tx_params private_key = Except.ok st) :
    st.metadata.network = tx_params.metadata.network ∧
    st.metadata.estimated_cost = tx_params.metadata.estimated_cost ∧
    st.metadata.timestamp = tx_params.metadata.timestamp ∧
    st.metadata.prepared = tx_params.metadata.prepared ∧
    st.metadata.signed = true ∧
    st.metadata.signed_at = some env.now := by
  obtain ⟨signer, bh, hparse, ha, hbranch, hst⟩ :=
    sign_transaction_ok_shape env tx_params private_key st h
  rw [hst]
  exact ⟨rfl, rfl, rfl, rfl, rfl, rfl⟩

/-- C6, witness: the concrete sample signing carries every metadata
field through, flips `signed` and stamps the sample clock. -/
theorem c6_sign_transaction_metadata_witness :
    sample_signed.metadata.network = sample_params.metadata.network ∧
    sample_signed.metadata.estimated_cost =
      sample_params.metadata.estimated_cost ∧
    sample_signed.metadata.timestamp = sample_params.metadata.timestamp ∧
    sample_signed.metadata.prepared = sample_params.metadata.prepared ∧
    sample_signed.metadata.signed = true ∧
    sample_signed.metadata.signed_at = some sample_env.now :=
  c6_sign_transaction_metadata sample_env sample_params "key" sample_signed rfl

/-! ### Claim C10: type-2 signing ignores the legacy gas price -/

/-- C10: on the type-2 signing path the legacy `gas_price` field is
read nowhere: replacing it by any value (present or absent) yields the
identical signing outcome, in particular the same signed encoding and
the same content hash. -/
theorem c10_sign_type2_ignores_gas_price (env : CryptoEnv)
    (tx_params : TxParams) (private_key : String) (gp : Option Nat)
    (h2 : tx_params.transaction.tx_type = 2) :
    sign_transaction env
        { tx_params with
          transaction := { tx_params.transaction with gas_price := gp } }
        private_key =
      sign_transaction env tx_params private_key := by
  obtain ⟨mo, fn, pr, tx, md⟩ := tx_params
  obtain ⟨ty, fr, toa, da, no, ch, gl, mf, mp, gpz, vl⟩ := tx
  simp only at h2
  subst h2
  rfl

/-- C10, witness: planting `gasPrice = 77` in the sample type-2
descriptor changes nothing about the signing outcome. -/
theorem c10_sign_type2_ignores_gas_price_witness :
    sign_transaction sample_env
        { sample_params with
          transaction :=
            { sample_params.transaction with gas_price := some 77 } } "key" =
      sign_transaction sample_env sample_params "key" :=
  c10_sign_type2_ignores_gas_price sample_env sample_params "key" (some 77) rfl

end Cryptoheir
